import Mathlib

/-!
Verification of the core components of a multi-source token sniper bot:
the per-source fixed-window rate limiter, the deterministic scoring and
selection gate of the enhanced multi-source scanner, the dedup pipeline of
the multi-source token scanner, and the paper-trading position lifecycle of
the trading engine.

Numeric values (prices, scores, SOL amounts) are modelled as exact
rationals; timestamps are integers in milliseconds.  External effects
(price oracles, momentum lookups) are passed in as explicit function
arguments so that every definition is a pure transcription of the
corresponding JavaScript function.
-/

namespace SniperBot

/-! ### Rate limiter (enhanced_multi_source_scanner.js, checkRateLimit)

The scanner keeps, per source, a record `{ max, window, current, reset }`.
`checkRateLimit` first resets the window if the current time has passed
`reset`, then refuses if `current >= max`, otherwise consumes one slot.
-/

structure RateLimit where
  max : Nat
  window : Int
  current : Nat
  reset : Int
deriving Repr, DecidableEq

/-- Transcription of `EnhancedMultiSourceScanner.checkRateLimit`, with the
current wall-clock time `now` passed explicitly.  Returns the allowed flag
together with the updated per-source window state. -/
def checkRateLimit (now : Int) (s : RateLimit) : Bool × RateLimit :=
  let s := if now > s.reset then { s with current := 0, reset := now + s.window } else s
  if s.current ≥ s.max then (false, s)
  else (true, { s with current := s.current + 1 })

/-- Runs a sequence of rate-limit checks at the given times, threading the
window state, and collects the allowed flags in order. -/
def runCalls (times : List Int) (s : RateLimit) : List Bool × RateLimit :=
  match times with
  | [] => ([], s)
  | t :: ts =>
      let r1 := checkRateLimit t s
      let r2 := runCalls ts r1.2
      (r1.1 :: r2.1, r2.2)

/-- Transcription of the guard at the top of each scanner cycle
(`if (!scanner.isRunning || !await this.checkRateLimit(source)) return;`):
when the source is stopped nothing happens at all, and when the rate limit
refuses, the cycle emits nothing — the fetch is skipped, not queued or
retried. -/
def scanStep (isRunning : Bool) (now : Int) (s : RateLimit) (fetched : List String) :
    List String × RateLimit :=
  if !isRunning then ([], s)
  else
    let r := checkRateLimit now s
    if r.1 then (fetched, r.2) else ([], r.2)

/-- Helper: a run of calls that all land inside the current window and fit
under the limit is fully allowed and only advances the counter. -/
theorem runCalls_in_window (ts : List Int) (s : RateLimit)
    (hin : ∀ t ∈ ts, t ≤ s.reset) (hfit : s.current + ts.length ≤ s.max) :
    runCalls ts s = (List.replicate ts.length true, { s with current := s.current + ts.length }) := by
  induction ts generalizing s with
  | nil => simp [runCalls]
  | cons t ts ih =>
      have ht : t ≤ s.reset := hin t (List.mem_cons_self _ _)
      have hnr : ¬ t > s.reset := not_lt.mpr ht
      have hlt : s.current < s.max := by
        have := hfit
        simp [List.length_cons] at this
        omega
      have hstep : checkRateLimit t s = (true, { s with current := s.current + 1 }) := by
        simp [checkRateLimit, hnr, not_le.mpr hlt]
      have hin2 : ∀ u ∈ ts, u ≤ ({ s with current := s.current + 1 } : RateLimit).reset := by
        intro u hu; exact hin u (List.mem_cons_of_mem _ hu)
      have hfit2 : ({ s with current := s.current + 1 } : RateLimit).current + ts.length ≤
          ({ s with current := s.current + 1 } : RateLimit).max := by
        simp only [List.length_cons] at hfit
        simpa using by omega
      have := ih { s with current := s.current + 1 } hin2 hfit2
      simp [runCalls, hstep, this, List.replicate_succ]
      omega

/-- C4: with max=60 requests per window=60000 ms, starting from a fresh
counter, each of the first 60 calls inside one window is allowed; the 61st
call inside the same window is refused and leaves the window state entirely
unchanged (no slot consumed); the containing scan cycle of a refused call
fetches nothing (nothing is queued, delayed, or retried); and a call made
after the window has elapsed is allowed again. -/
theorem checkRateLimit_fixed_window (s : RateLimit) (ts : List Int) (t61 tLater : Int)
    (hmax : s.max = 60) (_hwin : s.window = 60000) (hcur : s.current = 0)
    (hlen : ts.length = 60) (hin : ∀ t ∈ ts, t ≤ s.reset)
    (hin61 : t61 ≤ s.reset) (hlate : tLater > s.reset) :
    (runCalls ts s).1 = List.replicate 60 true ∧
    checkRateLimit t61 (runCalls ts s).2 = (false, (runCalls ts s).2) ∧
    scanStep true t61 (runCalls ts s).2 ["tok"] = ([], (runCalls ts s).2) ∧
    (checkRateLimit tLater (runCalls ts s).2).1 = true := by
  have hrun := runCalls_in_window ts s hin (by omega)
  have hfin : (runCalls ts s).2 = { s with current := 60 } := by
    rw [hrun]; simp [hcur, hlen]
  have hres : (runCalls ts s).1 = List.replicate 60 true := by
    rw [hrun]; simp [hlen]
  have h61 : checkRateLimit t61 (runCalls ts s).2 = (false, (runCalls ts s).2) := by
    rw [hfin]
    simp [checkRateLimit, not_lt.mpr hin61, hmax]
  refine ⟨hres, h61, ?_, ?_⟩
  · simp [scanStep, h61]
  · rw [hfin]
    simp [checkRateLimit, hlate, hmax]

/-- Witness for C4 at a concrete window: the bitquery configuration
(max 60, window 60000 ms), 60 calls at time 0, a 61st at time 1 and a late
call at time 70000. -/
theorem checkRateLimit_fixed_window_witness :
    (runCalls (List.replicate 60 0) ⟨60, 60000, 0, 60000⟩).1 = List.replicate 60 true ∧
    checkRateLimit 1 (runCalls (List.replicate 60 0) ⟨60, 60000, 0, 60000⟩).2 =
      (false, (runCalls (List.replicate 60 0) ⟨60, 60000, 0, 60000⟩).2) ∧
    scanStep true 1 (runCalls (List.replicate 60 0) ⟨60, 60000, 0, 60000⟩).2 ["tok"] =
      ([], (runCalls (List.replicate 60 0) ⟨60, 60000, 0, 60000⟩).2) ∧
    (checkRateLimit 70000 (runCalls (List.replicate 60 0) ⟨60, 60000, 0, 60000⟩).2).1 = true :=
  checkRateLimit_fixed_window ⟨60, 60000, 0, 60000⟩ (List.replicate 60 0) 1 70000
    rfl rfl rfl (by simp) (by intro t ht; simp at ht; subst ht; show (0 : Int) ≤ 60000; norm_num)
    (show (1 : Int) ≤ 60000 by norm_num) (show (70000 : Int) > 60000 by norm_num)

/-! ### Scoring and selection gate (enhanced_multi_source_scanner.js)

The scorer is a pure function of a candidate snapshot and the current
time.  All thresholds and weights are transcribed from
`scoreLiquidity` / `scoreMomentum` / `scoreAge` / `scoreVolume` /
`calculateRiskScore` / `analyzeAndStoreToken`.
-/

namespace Enhanced

structure Token where
  address : String
  symbol : String
  source : String
  liquidity : ℚ
  volume24h : ℚ
  priceChange24h : ℚ
  createdAt : ℤ
deriving Repr, DecidableEq

/-- Transcription of `scoreLiquidity`. -/
def scoreLiquidity (liquidity : ℚ) : ℚ :=
  if liquidity ≥ 50000 then 100
  else if liquidity ≥ 25000 then 80
  else if liquidity ≥ 10000 then 60
  else if liquidity ≥ 5000 then 40
  else if liquidity ≥ 1000 then 20
  else 10

/-- Transcription of `scoreMomentum`:  base 50, one bucketed bonus for the
24h price change and one for the 24h volume, capped at 100. -/
def scoreMomentum (priceChange volume24h : ℚ) : ℚ :=
  let s : ℚ := 50
  let s := if priceChange > 100 then s + 30
    else if priceChange > 50 then s + 25
    else if priceChange > 20 then s + 20
    else if priceChange > 10 then s + 15
    else if priceChange > 5 then s + 10
    else s
  let s := if volume24h > 100000 then s + 20
    else if volume24h > 50000 then s + 15
    else if volume24h > 10000 then s + 10
    else if volume24h > 1000 then s + 5
    else s
  min 100 s

/-- Transcription of `scoreAge` (age measured in minutes from `createdAt`
to the current time `now`, both in milliseconds). -/
def scoreAge (now createdAt : ℤ) : ℚ :=
  let ageMinutes : ℚ := ((now - createdAt : ℤ) : ℚ) / (1000 * 60)
  if ageMinutes < 5 then 100
  else if ageMinutes < 30 then 90
  else if ageMinutes < 60 then 80
  else if ageMinutes < 180 then 60
  else if ageMinutes < 360 then 40
  else if ageMinutes < 720 then 20
  else 10

/-- Transcription of `scoreVolume`, bucketed on the volume/liquidity
quotient, with the zero-liquidity guard. -/
def scoreVolume (volume liquidity : ℚ) : ℚ :=
  if liquidity = 0 then 0
  else
    let q := volume / liquidity
    if q > 5 then 100
    else if q > 2 then 80
    else if q > 1 then 60
    else if q > 0.5 then 40
    else if q > 0.1 then 20
    else 10

/-- Transcription of the `sourceBonus` table in `analyzeAndStoreToken`. -/
def sourceBonus (source : String) : ℚ :=
  if source = "raydium" then 25
  else if source = "pumpfun" then 20
  else if source = "moonshot" then 15
  else if source = "jupiter" then 10
  else if source = "dexscreener" then 5
  else if source = "birdeye" then 5
  else if source = "bitquery" then 5
  else 0

structure Analysis where
  liquidityScore : ℚ
  momentumScore : ℚ
  ageScore : ℚ
  volumeScore : ℚ
  sourceScore : ℚ
deriving Repr, DecidableEq

/-- The `analysis` record built in `analyzeAndStoreToken`: the ageScore
includes the source bonus, which is also kept as `sourceScore`. -/
def analyze (now : ℤ) (t : Token) : Analysis :=
  let bonus := sourceBonus t.source
  { liquidityScore := scoreLiquidity t.liquidity
    momentumScore := scoreMomentum t.priceChange24h t.volume24h
    ageScore := scoreAge now t.createdAt + bonus
    volumeScore := scoreVolume t.volume24h t.liquidity
    sourceScore := bonus }

/-- Weighted overall score as computed in `analyzeAndStoreToken`. -/
def overallScore (a : Analysis) : ℚ :=
  a.liquidityScore * 0.2 + a.momentumScore * 0.2 + a.ageScore * 0.3 +
    a.volumeScore * 0.2 + a.sourceScore * 0.1

/-- Transcription of `calculateRiskScore`. -/
def calculateRiskScore (now : ℤ) (t : Token) (a : Analysis) : ℚ :=
  let risk : ℚ := 40
  let risk := if t.liquidity < 5000 then risk + 20
    else if t.liquidity < 10000 then risk + 10
    else risk
  let risk := if |t.priceChange24h| > 200 then risk + 20
    else if |t.priceChange24h| > 100 then risk + 10
    else risk
  let ageMinutes : ℚ := ((now - t.createdAt : ℤ) : ℚ) / (1000 * 60)
  let risk := if ageMinutes < 10 then risk + 20
    else if ageMinutes < 30 then risk + 15
    else if ageMinutes < 60 then risk + 10
    else risk
  let risk := if t.source = "raydium" ∨ t.source = "jupiter" then risk - 10 else risk
  let risk := if t.source = "pumpfun" ∨ t.source = "moonshot" then risk - 5 else risk
  let avgScore := (a.liquidityScore + a.momentumScore + a.ageScore + a.volumeScore) / 4
  let risk := if avgScore < 40 then risk + 15 else risk
  min 100 (max 0 risk)

/-- Acceptance threshold on the overall score: lowered to 20 for the
priority sources raydium / pumpfun / moonshot, 30 otherwise
(`analyzeAndStoreToken`). -/
def scoreThreshold (source : String) : ℚ :=
  if source = "raydium" ∨ source = "pumpfun" ∨ source = "moonshot" then 20 else 30

/-- The selection gate of `analyzeAndStoreToken`:
`overallScore > scoreThreshold && riskScore < 85`. -/
def accepts (source : String) (overall risk : ℚ) : Bool :=
  decide (overall > scoreThreshold source) && decide (risk < 85)

/-- End-to-end acceptance of a candidate snapshot at time `now`. -/
def acceptsToken (now : ℤ) (t : Token) : Bool :=
  accepts t.source (overallScore (analyze now t)) (calculateRiskScore now t (analyze now t))

/-- The row handed to `db.addToken` when a token is accepted: the stored
social score is 15 for raydium/pumpfun and 0 otherwise, and the stored
risk score is the computed one. -/
structure StoredRow where
  address : String
  symbol : String
  social_score : ℚ
  risk_score : ℚ
  liquidity : ℚ
deriving Repr, DecidableEq

/-- Projection of `analyzeAndStoreToken`'s `db.addToken` call. -/
def storedRow (now : ℤ) (t : Token) : StoredRow :=
  { address := t.address
    symbol := t.symbol
    social_score := if t.source = "raydium" ∨ t.source = "pumpfun" then 15 else 0
    risk_score := calculateRiskScore now t (analyze now t)
    liquidity := t.liquidity }

end Enhanced

/-- The concrete scoring scenario of C5: liquidity 60000, 24h volume
120000, 24h price change 120, created 2 minutes before the evaluation
time, reported by the trusted source raydium. -/
def tokenC5 : Enhanced.Token :=
  { address := "C5t", symbol := "C5t", source := "raydium", liquidity := 60000,
    volume24h := 120000, priceChange24h := 120, createdAt := 0 }

/-- Counterexample to C5: in the stated scenario the volume score is 60,
not 100 — the volume/liquidity quotient is exactly 2 and the 80-point
bucket (let alone the 100-point one) requires a quotient strictly above
its bound. -/
theorem scoreVolume_scenario_cex :
    Enhanced.scoreVolume 120000 60000 = 60 ∧ ¬ Enhanced.scoreVolume 120000 60000 = 100 := by
  constructor <;> norm_num [Enhanced.scoreVolume]

/-- C5 amended: in the stated scenario the scorer yields
liquidityScore 100, momentumScore 100 (capped), ageScore 100 plus the
source-trust bonus, volumeScore 60 (the quotient 2 falls in the 60-point
bucket), and the overall score 92 clears the lowest acceptance threshold,
the token passing the full gate. -/
theorem scoring_scenario :
    (Enhanced.analyze 120000 tokenC5).liquidityScore = 100 ∧
    (Enhanced.analyze 120000 tokenC5).momentumScore = 100 ∧
    (Enhanced.analyze 120000 tokenC5).ageScore = 100 + Enhanced.sourceBonus "raydium" ∧
    (Enhanced.analyze 120000 tokenC5).volumeScore = 60 ∧
    Enhanced.overallScore (Enhanced.analyze 120000 tokenC5) = 92 ∧
    Enhanced.overallScore (Enhanced.analyze 120000 tokenC5) > Enhanced.scoreThreshold "raydium" ∧
    Enhanced.acceptsToken 120000 tokenC5 = true := by
  have hpm : ¬ (("raydium" : String) = "pumpfun" ∨ ("raydium" : String) = "moonshot") := by
    decide
  refine ⟨?_, ?_, ?_, ?_, ?_, ?_, ?_⟩ <;>
    norm_num [Enhanced.analyze, Enhanced.acceptsToken, Enhanced.accepts,
      Enhanced.overallScore, Enhanced.scoreLiquidity, Enhanced.scoreMomentum,
      Enhanced.scoreAge, Enhanced.scoreVolume, Enhanced.sourceBonus,
      Enhanced.calculateRiskScore, Enhanced.scoreThreshold, tokenC5, hpm]

/-- Counterexample to C6: the risk ceiling of the selection gate is not
loosened for higher-trust sources — with a passing overall score, the set
of risk values accepted for the highest-trust source (raydium) is exactly
the set accepted for a low-trust source (dexscreener): both are cut off at
the same constant 85. -/
theorem selectionGate_ceiling_cex :
    {r : ℚ | Enhanced.accepts "raydium" 100 r = true} =
      {r : ℚ | Enhanced.accepts "dexscreener" 100 r = true} := by
  have hd : ¬ (("dexscreener" : String) = "raydium" ∨ ("dexscreener" : String) = "pumpfun" ∨
      ("dexscreener" : String) = "moonshot") := by decide
  ext r
  simp only [Set.mem_setOf_eq, Enhanced.accepts, Enhanced.scoreThreshold,
    Bool.and_eq_true, decide_eq_true_eq]
  rw [if_pos (Or.inl trivial), if_neg hd]
  norm_num

/-- C6 amended: the selection gate accepts exactly when
overallScore > threshold and riskScore < 85; the threshold is relaxed to
20 for the higher-trust sources raydium / pumpfun / moonshot and is 30
for every other source, while the risk ceiling is the same constant 85
for all sources. -/
theorem selectionGate_threshold (source : String) (o r : ℚ) :
    (Enhanced.accepts source o r = true ↔
      o > Enhanced.scoreThreshold source ∧ r < 85) ∧
    ((source = "raydium" ∨ source = "pumpfun" ∨ source = "moonshot") →
      Enhanced.scoreThreshold source = 20) ∧
    (¬ (source = "raydium" ∨ source = "pumpfun" ∨ source = "moonshot") →
      Enhanced.scoreThreshold source = 30) := by
  refine ⟨?_, ?_, ?_⟩
  · simp [Enhanced.accepts]
  · intro h; simp [Enhanced.scoreThreshold, h]
  · intro h; simp [Enhanced.scoreThreshold, h]

/-- Witness for C6 amended, at the sources raydium and birdeye and the
concrete scores overall 50, risk 40. -/
theorem selectionGate_threshold_witness :
    (Enhanced.accepts "raydium" 50 40 = true ↔
      (50 : ℚ) > Enhanced.scoreThreshold "raydium" ∧ (40 : ℚ) < 85) ∧
    Enhanced.scoreThreshold "raydium" = 20 ∧
    Enhanced.scoreThreshold "birdeye" = 30 :=
  ⟨(selectionGate_threshold "raydium" 50 40).1,
   (selectionGate_threshold "raydium" 50 40).2.1 (Or.inl rfl),
   (selectionGate_threshold "birdeye" 50 40).2.2 (by decide)⟩

/-! ### Trading engine (TradingEngine, paper mode)

State is the paper balance, the open paper positions keyed by token
address, and the append-only trade log.  The price oracle
(`getCurrentPrice`) and the momentum lookup (`checkMomentum`) are HTTP
calls in the source and are passed in as explicit arguments; within one
monitoring tick the oracle answer for an address is a single value.  In
the source a falsy price (null or 0) is treated as unavailable
(`if (!currentPrice) return`), which the model mirrors.
-/

structure PaperPosition where
  symbol : String
  amount : ℚ
  entryPrice : ℚ
  entrySize : ℚ
  entryTime : ℤ
deriving Repr, DecidableEq

structure Trade where
  tokenAddress : String
  side : String
  amount : ℚ
  price : ℚ
  solAmount : ℚ
  status : String
  profitLoss : Option ℚ
deriving Repr, DecidableEq

structure EngineState where
  paperBalance : ℚ
  paperPositions : List (String × PaperPosition)
  trades : List Trade
deriving Repr, DecidableEq

/-- Percentage gain of a position at the current price, as computed in
`checkExitConditions`:
`((currentPrice - position.entryPrice) / position.entryPrice) * 100`. -/
def pnlPercent (currentPrice : ℚ) (p : PaperPosition) : ℚ :=
  (currentPrice - p.entryPrice) / p.entryPrice * 100

/-- Transcription of the exit-rule cascade in `checkExitConditions`:
pnlPercent and holdTime are computed from the position, then the four
rules are tried as nested if/else, the first match producing the reason. -/
def exitDecision (now : ℤ) (currentPrice : ℚ) (p : PaperPosition) : Option String :=
  let holdTime := now - p.entryTime
  let pnl := pnlPercent currentPrice p
  if pnl ≥ 100 then some "take_profit_100"
  else if pnl ≥ 50 ∧ holdTime > 30 * 60 * 1000 then some "take_profit_50"
  else if pnl ≤ -20 then some "stop_loss"
  else if holdTime > 24 * 60 * 60 * 1000 ∧ pnl < 10 then some "time_exit_24h"
  else none

/-- The sell trade emitted by the sell branch of `executePaperTrade`
(net of `recordTrade` followed by `updateTradeStatus` on the same
signature, which fills in `profit_loss = exitValue - entrySize` and marks
the trade completed). -/
def sellTradeOf (addr : String) (currentPrice : ℚ) (p : PaperPosition) : Trade :=
  { tokenAddress := addr
    side := "sell"
    amount := p.amount
    price := currentPrice
    solAmount := p.amount * currentPrice
    status := "completed"
    profitLoss := some (p.amount * currentPrice - p.entrySize) }

/-- Map.delete on the association list of paper positions. -/
def removePosition (addr : String) (l : List (String × PaperPosition)) :
    List (String × PaperPosition) :=
  l.filter (fun q => q.1 != addr)

/-- Transcription of the sell branch of `executePaperTrade`: if no
position is held for the address nothing happens; otherwise the position
is liquidated at the current price, the proceeds are credited to the
paper balance, the position is deleted and exactly one sell trade is
appended. -/
def executePaperSell (addr : String) (currentPrice : ℚ) (st : EngineState) : EngineState :=
  match st.paperPositions.lookup addr with
  | none => st
  | some p =>
      { paperBalance := st.paperBalance + p.amount * currentPrice
        paperPositions := removePosition addr st.paperPositions
        trades := st.trades ++ [sellTradeOf addr currentPrice p] }

/-- One monitoring step for one position (`checkExitConditions` followed,
on an exit signal, by the paper sell): an unavailable (absent or falsy)
price skips the tick, an available price evaluates the exit cascade and
closes the position on the first matching rule. -/
def checkExitConditionsStep (now : ℤ) (priceResult : Option ℚ) (addr : String)
    (st : EngineState) : EngineState :=
  match priceResult with
  | none => st
  | some currentPrice =>
      if currentPrice = 0 then st
      else
        match st.paperPositions.lookup addr with
        | none => st
        | some p =>
            match exitDecision now currentPrice p with
            | none => st
            | some _ => executePaperSell addr currentPrice st

/-- Transcription of `monitorPositions` (paper branch): every open
position is checked against the exit rules, with the price oracle asked
once per address. -/
def monitorPositions (now : ℤ) (price : String → Option ℚ) (st : EngineState) : EngineState :=
  (st.paperPositions.map (fun q => q.1)).foldl
    (fun s addr => checkExitConditionsStep now (price addr) addr s) st

/-- Row returned by `db.getViableTokens` as consumed by
`analyzeOpportunity`. -/
structure TokenRow where
  address : String
  symbol : String
  social_score : ℚ
  risk_score : ℚ
  liquidity : ℚ
deriving Repr, DecidableEq

structure TradeConfig where
  maxPositionSize : ℚ
  maxDailyLoss : ℚ
  minLiquidity : ℚ
  maxPositions : Nat
deriving Repr, DecidableEq

/-- Transcription of `hasPosition` (paper branch). -/
def hasPosition (addr : String) (st : EngineState) : Bool :=
  (st.paperPositions.lookup addr).isSome

/-- Transcription of `getActivePositionCount` (paper branch). -/
def getActivePositionCount (st : EngineState) : Nat :=
  st.paperPositions.length

/-- The five boolean factors of `analyzeOpportunity`; the momentum factor
is the result of the external `checkMomentum` call. -/
structure Factors where
  socialScore : Bool
  riskAcceptable : Bool
  liquidityOk : Bool
  momentumPositive : Bool
  notOverExposed : Bool
deriving Repr, DecidableEq

/-- Building the factor record in `analyzeOpportunity`. -/
def factorsOf (cfg : TradeConfig) (momentum : Bool) (activeCount : Nat) (t : TokenRow) :
    Factors :=
  { socialScore := decide (t.social_score > 15)
    riskAcceptable := decide (t.risk_score < 60)
    liquidityOk := decide (t.liquidity ≥ cfg.minLiquidity)
    momentumPositive := momentum
    notOverExposed := decide (activeCount < cfg.maxPositions) }

/-- Number of factors that hold (`Object.values(factors).filter(Boolean).length`). -/
def passedFactors (f : Factors) : Nat :=
  f.socialScore.toNat + f.riskAcceptable.toNat + f.liquidityOk.toNat +
    f.momentumPositive.toNat + f.notOverExposed.toNat

/-- The confidence percentage of `analyzeOpportunity`:
`(passedFactors / 5) * 100`. -/
def confidence (f : Factors) : ℚ :=
  ((passedFactors f : ℚ) / 5) * 100

/-- Entry fires when at least 4 of the 5 factors pass. -/
def shouldTrade (f : Factors) : Bool :=
  decide (passedFactors f ≥ 4)

/-- Transcription of `calculatePositionSize`: the size scales linearly
from 50% to 100% of `maxPositionSize` with the confidence percentage. -/
def calculatePositionSize (cfg : TradeConfig) (conf : ℚ) : ℚ :=
  cfg.maxPositionSize * (0.5 + 0.5 * (conf / 100))

/-- The buy trade recorded by the buy branch of `executePaperTrade`. -/
def buyTradeOf (t : TokenRow) (size currentPrice : ℚ) : Trade :=
  { tokenAddress := t.address
    side := "buy"
    amount := size / currentPrice
    price := currentPrice
    solAmount := size
    status := "completed"
    profitLoss := none }

/-- Map.set on the association list of paper positions. -/
def setPosition (addr : String) (p : PaperPosition) (l : List (String × PaperPosition)) :
    List (String × PaperPosition) :=
  if (l.lookup addr).isSome then
    l.map (fun q => if q.1 == addr then (addr, p) else q)
  else l ++ [(addr, p)]

/-- Transcription of the buy branch of `executePaperTrade`: an
unavailable (absent or falsy) price aborts the entry, an insufficient
paper balance aborts the entry, otherwise the trade is recorded, the
balance debited and the position opened at the current price. -/
def executePaperBuy (t : TokenRow) (size : ℚ) (priceResult : Option ℚ) (now : ℤ)
    (st : EngineState) : EngineState :=
  match priceResult with
  | none => st
  | some currentPrice =>
      if currentPrice = 0 then st
      else if st.paperBalance < size then st
      else
        { paperBalance := st.paperBalance - size
          paperPositions := setPosition t.address
            ⟨t.symbol, size / currentPrice, currentPrice, size, now⟩ st.paperPositions
          trades := st.trades ++ [buyTradeOf t size currentPrice] }

/-- The loop body of `checkTradingOpportunities` for one opportunity:
skip if a position is already held, otherwise analyze and, if at least 4
factors pass, execute the paper buy at the suggested size. -/
def processOpportunity (cfg : TradeConfig) (momentum : String → Bool)
    (price : String → Option ℚ) (now : ℤ) (t : TokenRow) (st : EngineState) : EngineState :=
  if hasPosition t.address st then st
  else
    let f := factorsOf cfg (momentum t.address) (getActivePositionCount st) t
    if shouldTrade f then
      executePaperBuy t (calculatePositionSize cfg (confidence f)) (price t.address) now st
    else st

/-- The daily-loss guard of `checkTradingOpportunities`:
`Math.abs(dailyPnL) / accountBalance > maxDailyLoss`. -/
def dailyLossGuardTripped (cfg : TradeConfig) (dailyPnL accountBalance : ℚ) : Bool :=
  decide (|dailyPnL| / accountBalance > cfg.maxDailyLoss)

/-- Transcription of `checkTradingOpportunities`: if the daily-loss guard
is tripped the whole cycle opens nothing; otherwise each viable token is
processed in order.  In paper mode `getAccountBalance` is the paper
balance. -/
def checkTradingOpportunities (cfg : TradeConfig) (dailyPnL : ℚ) (opportunities : List TokenRow)
    (momentum : String → Bool) (price : String → Option ℚ) (now : ℤ)
    (st : EngineState) : EngineState :=
  if dailyLossGuardTripped cfg dailyPnL st.paperBalance then st
  else opportunities.foldl (fun s t => processOpportunity cfg momentum price now t s) st

/-- One timer cycle of `startTrading`: `checkTradingOpportunities`
followed by `monitorPositions`. -/
def tradingCycle (cfg : TradeConfig) (dailyPnL : ℚ) (opportunities : List TokenRow)
    (momentum : String → Bool) (price : String → Option ℚ) (now : ℤ)
    (st : EngineState) : EngineState :=
  monitorPositions now price (checkTradingOpportunities cfg dailyPnL opportunities momentum price now st)

/-- Helper: deleting an address from the position map makes lookups for
that address fail. -/
theorem lookup_removePosition (addr : String) (l : List (String × PaperPosition)) :
    (removePosition addr l).lookup addr = none := by
  induction l with
  | nil => rfl
  | cons q l ih =>
      rw [removePosition, List.filter_cons]
      by_cases h : q.1 = addr
      · simpa [h, removePosition] using ih
      · have hb : (q.1 != addr) = true := by simp [h]
        have ha : (addr == q.1) = false := by simp [Ne.symm h]
        simpa [hb, List.lookup, ha, removePosition] using ih

/-- C1: on a monitoring tick with an available price, the exit cascade
realizes the four rules in priority order with first match winning —
take_profit_100 exactly when gain ≥ 100; take_profit_50 exactly when the
first rule fails, gain ≥ 50 and the hold time exceeds 30 minutes;
stop_loss exactly when the first two fail and gain ≤ −20; time_exit_24h
exactly when the first three fail, the hold time exceeds 24 hours and
gain < 10; the position stays open exactly when no rule matches — and
every close appends exactly one sell trade whose profitLoss is exitValue
minus the SOL committed at entry, deleting the position. -/
theorem exit_rules_first_match (now : ℤ) (cp : ℚ) (addr : String) (p : PaperPosition)
    (st : EngineState) (hcp : cp ≠ 0)
    (hpos : st.paperPositions.lookup addr = some p) :
    (exitDecision now cp p = some "take_profit_100" ↔ pnlPercent cp p ≥ 100) ∧
    (exitDecision now cp p = some "take_profit_50" ↔
      (¬ pnlPercent cp p ≥ 100 ∧
        (pnlPercent cp p ≥ 50 ∧ now - p.entryTime > 30 * 60 * 1000))) ∧
    (exitDecision now cp p = some "stop_loss" ↔
      (¬ pnlPercent cp p ≥ 100 ∧
        ¬ (pnlPercent cp p ≥ 50 ∧ now - p.entryTime > 30 * 60 * 1000) ∧
        pnlPercent cp p ≤ -20)) ∧
    (exitDecision now cp p = some "time_exit_24h" ↔
      (¬ pnlPercent cp p ≥ 100 ∧
        ¬ (pnlPercent cp p ≥ 50 ∧ now - p.entryTime > 30 * 60 * 1000) ∧
        ¬ pnlPercent cp p ≤ -20 ∧
        (now - p.entryTime > 24 * 60 * 60 * 1000 ∧ pnlPercent cp p < 10))) ∧
    (exitDecision now cp p = none ↔
      (¬ pnlPercent cp p ≥ 100 ∧
        ¬ (pnlPercent cp p ≥ 50 ∧ now - p.entryTime > 30 * 60 * 1000) ∧
        ¬ pnlPercent cp p ≤ -20 ∧
        ¬ (now - p.entryTime > 24 * 60 * 60 * 1000 ∧ pnlPercent cp p < 10))) ∧
    (∀ reason, exitDecision now cp p = some reason →
      checkExitConditionsStep now (some cp) addr st =
        { paperBalance := st.paperBalance + p.amount * cp
          paperPositions := removePosition addr st.paperPositions
          trades := st.trades ++ [sellTradeOf addr cp p] } ∧
      (sellTradeOf addr cp p).side = "sell" ∧
      (sellTradeOf addr cp p).profitLoss = some (p.amount * cp - p.entrySize) ∧
      (removePosition addr st.paperPositions).lookup addr = none) := by
  refine ⟨?_, ?_, ?_, ?_, ?_, ?_⟩
  · simp only [exitDecision]; split_ifs <;> simp_all
  · simp only [exitDecision]; split_ifs <;> simp_all
  · simp only [exitDecision]; split_ifs <;> simp_all
  · simp only [exitDecision]; split_ifs <;> simp_all
  · simp only [exitDecision]; split_ifs <;> simp_all
  · intro reason hr
    refine ⟨?_, rfl, rfl, lookup_removePosition addr st.paperPositions⟩
    simp [checkExitConditionsStep, hcp, hpos, hr, executePaperSell]

/-- Witness for C1: a position entered at price 1 with 5 tokens for 4 SOL
checked at price 2 one second after entry fires take_profit_100 and the
close emits the single sell trade with profitLoss 10 − 4 = 6. -/
theorem exit_rules_first_match_witness :
    (exitDecision 1000 2 ⟨"W", 5, 1, 4, 0⟩ = some "take_profit_100" ↔
      pnlPercent 2 ⟨"W", 5, 1, 4, 0⟩ ≥ 100) ∧
    (exitDecision 1000 2 ⟨"W", 5, 1, 4, 0⟩ = some "take_profit_50" ↔
      (¬ pnlPercent 2 ⟨"W", 5, 1, 4, 0⟩ ≥ 100 ∧
        (pnlPercent 2 ⟨"W", 5, 1, 4, 0⟩ ≥ 50 ∧ (1000 : ℤ) - 0 > 30 * 60 * 1000))) ∧
    (exitDecision 1000 2 ⟨"W", 5, 1, 4, 0⟩ = some "stop_loss" ↔
      (¬ pnlPercent 2 ⟨"W", 5, 1, 4, 0⟩ ≥ 100 ∧
        ¬ (pnlPercent 2 ⟨"W", 5, 1, 4, 0⟩ ≥ 50 ∧ (1000 : ℤ) - 0 > 30 * 60 * 1000) ∧
        pnlPercent 2 ⟨"W", 5, 1, 4, 0⟩ ≤ -20)) ∧
    (exitDecision 1000 2 ⟨"W", 5, 1, 4, 0⟩ = some "time_exit_24h" ↔
      (¬ pnlPercent 2 ⟨"W", 5, 1, 4, 0⟩ ≥ 100 ∧
        ¬ (pnlPercent 2 ⟨"W", 5, 1, 4, 0⟩ ≥ 50 ∧ (1000 : ℤ) - 0 > 30 * 60 * 1000) ∧
        ¬ pnlPercent 2 ⟨"W", 5, 1, 4, 0⟩ ≤ -20 ∧
        ((1000 : ℤ) - 0 > 24 * 60 * 60 * 1000 ∧ pnlPercent 2 ⟨"W", 5, 1, 4, 0⟩ < 10))) ∧
    (exitDecision 1000 2 ⟨"W", 5, 1, 4, 0⟩ = none ↔
      (¬ pnlPercent 2 ⟨"W", 5, 1, 4, 0⟩ ≥ 100 ∧
        ¬ (pnlPercent 2 ⟨"W", 5, 1, 4, 0⟩ ≥ 50 ∧ (1000 : ℤ) - 0 > 30 * 60 * 1000) ∧
        ¬ pnlPercent 2 ⟨"W", 5, 1, 4, 0⟩ ≤ -20 ∧
        ¬ ((1000 : ℤ) - 0 > 24 * 60 * 60 * 1000 ∧ pnlPercent 2 ⟨"W", 5, 1, 4, 0⟩ < 10))) ∧
    (∀ reason, exitDecision 1000 2 ⟨"W", 5, 1, 4, 0⟩ = some reason →
      checkExitConditionsStep 1000 (some 2) "A"
          ⟨10, [("A", ⟨"W", 5, 1, 4, 0⟩)], []⟩ =
        { paperBalance := (10 : ℚ) + 5 * 2
          paperPositions := removePosition "A" [("A", ⟨"W", 5, 1, 4, 0⟩)]
          trades := [] ++ [sellTradeOf "A" 2 ⟨"W", 5, 1, 4, 0⟩] } ∧
      (sellTradeOf "A" 2 ⟨"W", 5, 1, 4, 0⟩).side = "sell" ∧
      (sellTradeOf "A" 2 ⟨"W", 5, 1, 4, 0⟩).profitLoss = some ((5 : ℚ) * 2 - 4) ∧
      (removePosition "A" [("A", ⟨"W", 5, 1, 4, 0⟩)]).lookup "A" = none) :=
  exit_rules_first_match 1000 2 "A" ⟨"W", 5, 1, 4, 0⟩
    ⟨10, [("A", ⟨"W", 5, 1, 4, 0⟩)], []⟩ (by norm_num) (by simp [List.lookup])

/-- C8: an unavailable price during monitoring skips the tick with no
state change — the position is not closed, no trade is recorded, the
balance and position fields are untouched — and the next tick evaluates
the exit rules exactly as if the failed tick had never happened. -/
theorem priceUnavailable_skips (now : ℤ) (addr : String) (st : EngineState)
    (now2 : ℤ) (nextPrice : Option ℚ) :
    checkExitConditionsStep now none addr st = st ∧
    checkExitConditionsStep now2 nextPrice addr (checkExitConditionsStep now none addr st) =
      checkExitConditionsStep now2 nextPrice addr st := by
  exact ⟨rfl, rfl⟩

/-- The engine configuration under the default environment (`0.1` SOL max
position, 5% max daily loss, 5000 min liquidity, 10 max positions). -/
def defaultConfig : TradeConfig :=
  { maxPositionSize := 1/10, maxDailyLoss := 1/20, minLiquidity := 5000, maxPositions := 10 }

def dummyPosition : PaperPosition := ⟨"DUM", 1, 1, 1, 0⟩

/-- An engine state already holding ten open paper positions (the
configured maximum) with 10 SOL of paper balance. -/
def tenPositionsState : EngineState :=
  { paperBalance := 10
    paperPositions :=
      [("p0", dummyPosition), ("p1", dummyPosition), ("p2", dummyPosition),
       ("p3", dummyPosition), ("p4", dummyPosition), ("p5", dummyPosition),
       ("p6", dummyPosition), ("p7", dummyPosition), ("p8", dummyPosition),
       ("p9", dummyPosition)]
    trades := [] }

/-- A viable-token row that passes the social, risk and liquidity
factors. -/
def freshToken : TokenRow :=
  { address := "newtok", symbol := "NT", social_score := 20, risk_score := 50,
    liquidity := 10000 }

/-- Helper: setting a fresh address appends the position. -/
theorem setPosition_not_mem (addr : String) (p : PaperPosition)
    (l : List (String × PaperPosition)) (h : (l.lookup addr).isSome = false) :
    setPosition addr p l = l ++ [(addr, p)] := by
  simp [setPosition, h]

/-- Helper: evaluation of the loop body at the ten-position state — the
entry for the fresh token goes through at size 9/100 even though the
position count already equals the maximum. -/
theorem processOpportunity_tenPositions_eval :
    processOpportunity defaultConfig (fun _ => true) (fun _ => some 1) 0 freshToken
      tenPositionsState =
      { paperBalance := 10 - 9/100
        paperPositions :=
          tenPositionsState.paperPositions ++ [("newtok", ⟨"NT", 9/100, 1, 9/100, 0⟩)]
        trades := [buyTradeOf freshToken (9/100) 1] } := by
  have h1 : hasPosition freshToken.address tenPositionsState = false := rfl
  have hcnt : getActivePositionCount tenPositionsState = 10 := rfl
  have hf : factorsOf defaultConfig true 10 freshToken = ⟨true, true, true, true, false⟩ := by
    norm_num [factorsOf, defaultConfig, freshToken]
  have hst : shouldTrade (⟨true, true, true, true, false⟩ : Factors) = true := rfl
  have hc : confidence (⟨true, true, true, true, false⟩ : Factors) = 80 := by
    norm_num [confidence, passedFactors]
  have hs : calculatePositionSize defaultConfig 80 = 9/100 := by
    norm_num [calculatePositionSize, defaultConfig]
  have hlk : (tenPositionsState.paperPositions.lookup "newtok").isSome = false := rfl
  have hb : ¬ tenPositionsState.paperBalance < 9/100 := by
    norm_num [tenPositionsState]
  have hpb : tenPositionsState.paperBalance = 10 := rfl
  have htr : tenPositionsState.trades = [] := rfl
  have hfa : freshToken.address = "newtok" := rfl
  have hfs : freshToken.symbol = "NT" := rfl
  unfold processOpportunity
  simp only [h1, Bool.false_eq_true, if_false, hcnt, hf, hst, if_true, hc, hs]
  have hb2 : ¬ (10 : ℚ) < 9/100 := by norm_num
  unfold executePaperBuy
  simp only [one_ne_zero, if_false, hb, if_true, hfa, hfs, div_one, hpb, htr]
  rw [setPosition_not_mem _ _ _ hlk]
  simp [hb2]

/-- Helper: evaluation of one full opportunity cycle at the ten-position
state. -/
theorem checkTrading_tenPositions_eval :
    checkTradingOpportunities defaultConfig 0 [freshToken] (fun _ => true)
      (fun _ => some 1) 0 tenPositionsState =
      { paperBalance := 10 - 9/100
        paperPositions :=
          tenPositionsState.paperPositions ++ [("newtok", ⟨"NT", 9/100, 1, 9/100, 0⟩)]
        trades := [buyTradeOf freshToken (9/100) 1] } := by
  have hg : dailyLossGuardTripped defaultConfig 0 tenPositionsState.paperBalance = false := by
    norm_num [dailyLossGuardTripped, defaultConfig, tenPositionsState]
  unfold checkTradingOpportunities
  simp only [hg, Bool.false_eq_true, if_false, List.foldl_cons, List.foldl_nil]
  exact processOpportunity_tenPositions_eval

/-- Counterexample to C2: with ten open positions (the configured
maximum) and a token passing the other four factors (social, risk,
liquidity, momentum), `shouldTrade` still fires — the position-count
bound is only one of five voting factors — and the cycle opens an
eleventh position and records a buy trade while
activePositionCount ≥ maxPositions. -/
theorem maxPositions_not_enforced_cex :
    getActivePositionCount tenPositionsState = defaultConfig.maxPositions ∧
    shouldTrade (factorsOf defaultConfig true
      (getActivePositionCount tenPositionsState) freshToken) = true ∧
    (checkTradingOpportunities defaultConfig 0 [freshToken] (fun _ => true)
      (fun _ => some 1) 0 tenPositionsState).trades = [buyTradeOf freshToken (9/100) 1] ∧
    getActivePositionCount (checkTradingOpportunities defaultConfig 0 [freshToken]
      (fun _ => true) (fun _ => some 1) 0 tenPositionsState) =
      defaultConfig.maxPositions + 1 := by
  refine ⟨rfl, rfl, ?_, ?_⟩
  · rw [checkTrading_tenPositions_eval]
  · rw [checkTrading_tenPositions_eval]
    rfl

/-- C2 amended: an entry is executed only when the daily-loss guard is
not tripped (a tripped guard makes the whole cycle a no-op), no open
position exists for the token address, and at least 4 of the 5 analysis
factors pass; the position-count ceiling is only one of those five
factors, not a standalone precondition. -/
theorem entry_preconditions (cfg : TradeConfig) (dailyPnL : ℚ) (ops : List TokenRow)
    (t : TokenRow) (mom : String → Bool) (price : String → Option ℚ) (now : ℤ)
    (st : EngineState) :
    (dailyLossGuardTripped cfg dailyPnL st.paperBalance = true →
      checkTradingOpportunities cfg dailyPnL ops mom price now st = st) ∧
    (processOpportunity cfg mom price now t st ≠ st →
      hasPosition t.address st = false ∧
      shouldTrade (factorsOf cfg (mom t.address) (getActivePositionCount st) t) = true) := by
  constructor
  · intro h
    simp [checkTradingOpportunities, h]
  · intro hne
    by_cases h1 : hasPosition t.address st
    · exact absurd (by simp [processOpportunity, h1]) hne
    · by_cases h2 : shouldTrade (factorsOf cfg (mom t.address) (getActivePositionCount st) t) = true
      · exact ⟨by simpa using h1, h2⟩
      · exact absurd (by simp [processOpportunity, h1, h2]) hne

/-- Witness for C2 amended: a day 10 SOL in profit against a 10 SOL
balance trips the guard and freezes the cycle, and at the over-exposed
ten-position state the executed entry for the fresh token indeed had no
prior position and at least four passing factors. -/
theorem entry_preconditions_witness :
    checkTradingOpportunities defaultConfig 10 [freshToken] (fun _ => true)
      (fun _ => some 1) 0 tenPositionsState = tenPositionsState ∧
    (hasPosition freshToken.address tenPositionsState = false ∧
      shouldTrade (factorsOf defaultConfig true
        (getActivePositionCount tenPositionsState) freshToken) = true) := by
  constructor
  · exact (entry_preconditions defaultConfig 10 [freshToken] freshToken (fun _ => true)
      (fun _ => some 1) 0 tenPositionsState).1
      (by norm_num [dailyLossGuardTripped, tenPositionsState, defaultConfig])
  · refine (entry_preconditions defaultConfig 0 [freshToken] freshToken (fun _ => true)
      (fun _ => some 1) 0 tenPositionsState).2 ?_
    rw [processOpportunity_tenPositions_eval]
    intro h
    have h2 := congrArg (fun s => s.trades.length) h
    simp [tenPositionsState] at h2

/-- Round trip from a stored scanner row to the viable-token row consumed
by `analyzeOpportunity` (the fields `addToken` persists and
`getViableTokens` serves back). -/
def rowToToken (r : Enhanced.StoredRow) : TokenRow :=
  { address := r.address, symbol := r.symbol, social_score := r.social_score,
    risk_score := r.risk_score, liquidity := r.liquidity }

/-- First candidate for C7: jupiter source, liquidity 10000, 24h volume
1500, 24h price change 6, 20 minutes old at evaluation time 1200000. -/
def tokC7a : Enhanced.Token :=
  { address := "a7", symbol := "A7", source := "jupiter", liquidity := 10000,
    volume24h := 1500, priceChange24h := 6, createdAt := 0 }

/-- Second candidate for C7: identical except liquidity 9999 and 24h
price change 101, tuned so the overall score is unchanged (60) while the
risk score moves from 45 to 65. -/
def tokC7b : Enhanced.Token :=
  { address := "b7", symbol := "B7", source := "jupiter", liquidity := 9999,
    volume24h := 1500, priceChange24h := 101, createdAt := 0 }

/-- Counterexample to C7: two accepted candidates with the same overall
score (60) lead to different position sizes (9/100 vs 8/100 SOL), because
the confidence driving the size comes from the five analysis factors (the
stored risk score among them), not from the overall score. -/
theorem positionSize_not_from_overallScore_cex :
    Enhanced.overallScore (Enhanced.analyze 1200000 tokC7a) =
      Enhanced.overallScore (Enhanced.analyze 1200000 tokC7b) ∧
    Enhanced.acceptsToken 1200000 tokC7a = true ∧
    Enhanced.acceptsToken 1200000 tokC7b = true ∧
    calculatePositionSize defaultConfig (confidence (factorsOf defaultConfig true 0
      (rowToToken (Enhanced.storedRow 1200000 tokC7a)))) = 9/100 ∧
    calculatePositionSize defaultConfig (confidence (factorsOf defaultConfig true 0
      (rowToToken (Enhanced.storedRow 1200000 tokC7b)))) = 8/100 ∧
    calculatePositionSize defaultConfig (confidence (factorsOf defaultConfig true 0
        (rowToToken (Enhanced.storedRow 1200000 tokC7a)))) ≠
      calculatePositionSize defaultConfig (confidence (factorsOf defaultConfig true 0
        (rowToToken (Enhanced.storedRow 1200000 tokC7b)))) := by
  have hj1 : ¬ ("jupiter" : String) = "raydium" := by decide
  have hj2 : ¬ ("jupiter" : String) = "pumpfun" := by decide
  have hj3 : ¬ ("jupiter" : String) = "moonshot" := by decide
  have hrA : Enhanced.calculateRiskScore 1200000 tokC7a (Enhanced.analyze 1200000 tokC7a) = 45 := by
    norm_num [Enhanced.calculateRiskScore, Enhanced.analyze, Enhanced.scoreLiquidity,
      Enhanced.scoreMomentum, Enhanced.scoreAge, Enhanced.scoreVolume,
      Enhanced.sourceBonus, tokC7a, hj1, hj2, hj3, min_def, max_def]
  have hrB : Enhanced.calculateRiskScore 1200000 tokC7b (Enhanced.analyze 1200000 tokC7b) = 65 := by
    norm_num [Enhanced.calculateRiskScore, Enhanced.analyze, Enhanced.scoreLiquidity,
      Enhanced.scoreMomentum, Enhanced.scoreAge, Enhanced.scoreVolume,
      Enhanced.sourceBonus, tokC7b, hj1, hj2, hj3, min_def, max_def]
  have hsA : Enhanced.storedRow 1200000 tokC7a =
      { address := "a7", symbol := "A7", social_score := 0, risk_score := 45,
        liquidity := 10000 } := by
    rw [Enhanced.storedRow, hrA]
    norm_num [tokC7a, hj1, hj2]
  have hsB : Enhanced.storedRow 1200000 tokC7b =
      { address := "b7", symbol := "B7", social_score := 0, risk_score := 65,
        liquidity := 9999 } := by
    rw [Enhanced.storedRow, hrB]
    norm_num [tokC7b, hj1, hj2]
  have hfA : factorsOf defaultConfig true 0 (rowToToken (Enhanced.storedRow 1200000 tokC7a)) =
      ⟨false, true, true, true, true⟩ := by
    rw [hsA]
    norm_num [factorsOf, rowToToken, defaultConfig]
  have hfB : factorsOf defaultConfig true 0 (rowToToken (Enhanced.storedRow 1200000 tokC7b)) =
      ⟨false, false, true, true, true⟩ := by
    rw [hsB]
    norm_num [factorsOf, rowToToken, defaultConfig]
  have hsoA : tokC7a.source = "jupiter" := rfl
  have hsoB : tokC7b.source = "jupiter" := rfl
  refine ⟨?_, ?_, ?_, ?_, ?_, ?_⟩
  · norm_num [Enhanced.overallScore, Enhanced.analyze, Enhanced.scoreLiquidity,
      Enhanced.scoreMomentum, Enhanced.scoreAge, Enhanced.scoreVolume,
      Enhanced.sourceBonus, tokC7a, tokC7b, hj1, hj2, hj3]
  · rw [Enhanced.acceptsToken, hrA, hsoA]
    norm_num [Enhanced.accepts, Enhanced.scoreThreshold, Enhanced.overallScore,
      Enhanced.analyze, Enhanced.scoreLiquidity, Enhanced.scoreMomentum,
      Enhanced.scoreAge, Enhanced.scoreVolume, Enhanced.sourceBonus, tokC7a,
      hj1, hj2, hj3]
  · rw [Enhanced.acceptsToken, hrB, hsoB]
    norm_num [Enhanced.accepts, Enhanced.scoreThreshold, Enhanced.overallScore,
      Enhanced.analyze, Enhanced.scoreLiquidity, Enhanced.scoreMomentum,
      Enhanced.scoreAge, Enhanced.scoreVolume, Enhanced.sourceBonus, tokC7b,
      hj1, hj2, hj3]
  · rw [hfA]; norm_num [calculatePositionSize, confidence, passedFactors, defaultConfig]
  · rw [hfB]; norm_num [calculatePositionSize, confidence, passedFactors, defaultConfig]
  · rw [hfA, hfB]
    norm_num [calculatePositionSize, confidence, passedFactors, defaultConfig]

/-- C7 amended: the committed entry size is
maxPositionSize × (1/2 + 1/2 × confidence/100), where the confidence is
the fraction of the five passed analysis factors times 100 (not a
function of the overall score); for a nonnegative maxPositionSize the
size always lies between 50% and 100% of maxPositionSize. -/
theorem positionSize_formula (cfg : TradeConfig) (f : Factors)
    (h : 0 ≤ cfg.maxPositionSize) :
    calculatePositionSize cfg (confidence f) =
      cfg.maxPositionSize * (1/2 + 1/2 * (confidence f / 100)) ∧
    confidence f = (passedFactors f : ℚ) / 5 * 100 ∧
    cfg.maxPositionSize / 2 ≤ calculatePositionSize cfg (confidence f) ∧
    calculatePositionSize cfg (confidence f) ≤ cfg.maxPositionSize := by
  have h5 : passedFactors f ≤ 5 := by
    have t1 : f.socialScore.toNat ≤ 1 := Bool.toNat_le f.socialScore
    have t2 : f.riskAcceptable.toNat ≤ 1 := Bool.toNat_le f.riskAcceptable
    have t3 : f.liquidityOk.toNat ≤ 1 := Bool.toNat_le f.liquidityOk
    have t4 : f.momentumPositive.toNat ≤ 1 := Bool.toNat_le f.momentumPositive
    have t5 : f.notOverExposed.toNat ≤ 1 := Bool.toNat_le f.notOverExposed
    unfold passedFactors
    omega
  have h5q : (passedFactors f : ℚ) ≤ 5 := by exact_mod_cast h5
  have h0q : (0 : ℚ) ≤ (passedFactors f : ℚ) := Nat.cast_nonneg _
  have hc0 : 0 ≤ confidence f := by unfold confidence; positivity
  have hc1 : confidence f ≤ 100 := by unfold confidence; linarith
  refine ⟨by norm_num [calculatePositionSize], rfl, ?_, ?_⟩
  · unfold calculatePositionSize
    nlinarith [mul_nonneg h hc0]
  · unfold calculatePositionSize
    nlinarith [mul_nonneg h (by linarith : (0 : ℚ) ≤ 100 - confidence f)]

/-- Witness for C7 amended at the default configuration and the all-true
factor record (confidence 100). -/
theorem positionSize_formula_witness :
    calculatePositionSize defaultConfig (confidence ⟨true, true, true, true, true⟩) =
      defaultConfig.maxPositionSize *
        (1/2 + 1/2 * (confidence ⟨true, true, true, true, true⟩ / 100)) ∧
    confidence ⟨true, true, true, true, true⟩ =
      (passedFactors ⟨true, true, true, true, true⟩ : ℚ) / 5 * 100 ∧
    defaultConfig.maxPositionSize / 2 ≤
      calculatePositionSize defaultConfig (confidence ⟨true, true, true, true, true⟩) ∧
    calculatePositionSize defaultConfig (confidence ⟨true, true, true, true, true⟩) ≤
      defaultConfig.maxPositionSize :=
  positionSize_formula defaultConfig ⟨true, true, true, true, true⟩
    (by norm_num [defaultConfig])

/-- C10: the daily-loss guard compares the absolute daily P&L, so a day
whose realized profit exceeds maxDailyLoss × balance also trips it: the
opportunity pass of that cycle opens nothing, while the same cycle still
monitors (and can close) the existing positions, because position
monitoring runs independently of the guard. -/
theorem dailyLossGuard_on_gains (cfg : TradeConfig) (dailyPnL : ℚ) (ops : List TokenRow)
    (mom : String → Bool) (price : String → Option ℚ) (now : ℤ) (st : EngineState)
    (hb : 0 < st.paperBalance) (hm : 0 ≤ cfg.maxDailyLoss)
    (hp : cfg.maxDailyLoss * st.paperBalance < dailyPnL) :
    dailyLossGuardTripped cfg dailyPnL st.paperBalance = true ∧
    checkTradingOpportunities cfg dailyPnL ops mom price now st = st ∧
    tradingCycle cfg dailyPnL ops mom price now st = monitorPositions now price st := by
  have hp0 : 0 < dailyPnL := lt_of_le_of_lt (mul_nonneg hm hb.le) hp
  have ht : dailyLossGuardTripped cfg dailyPnL st.paperBalance = true := by
    unfold dailyLossGuardTripped
    rw [decide_eq_true_eq, gt_iff_lt, abs_of_pos hp0, lt_div_iff₀ hb]
    exact hp
  exact ⟨ht, by simp [checkTradingOpportunities, ht],
    by simp [tradingCycle, checkTradingOpportunities, ht]⟩

/-- Witness for C10: a day 10 SOL in profit against a 10 SOL balance and
a 5% loss limit blocks new entries for the cycle while monitoring still
runs on the unchanged state. -/
theorem dailyLossGuard_on_gains_witness :
    dailyLossGuardTripped defaultConfig 10 tenPositionsState.paperBalance = true ∧
    checkTradingOpportunities defaultConfig 10 [freshToken] (fun _ => true)
      (fun _ => some 1) 0 tenPositionsState = tenPositionsState ∧
    tradingCycle defaultConfig 10 [freshToken] (fun _ => true) (fun _ => some 1) 0
      tenPositionsState = monitorPositions 0 (fun _ => some 1) tenPositionsState :=
  dailyLossGuard_on_gains defaultConfig 10 [freshToken] (fun _ => true) (fun _ => some 1) 0
    tenPositionsState (by norm_num [tenPositionsState]) (by norm_num [defaultConfig])
    (by norm_num [defaultConfig, tenPositionsState])

/-! ### Aggregator working-set eviction (enhanced_multi_source_scanner.js,
aggregateAndProcessTokens)

The processed-token working set is a JavaScript `Set`, which iterates in
insertion order, so it is modelled as the insertion-ordered list of
addresses.  At the end of each aggregation cycle the code runs
`if (processedTokens.size > 1000) delete the first 500 of
Array.from(processedTokens)` — drop the 500 earliest-discovered entries.
-/

/-- Transcription of the cleanup at the end of
`aggregateAndProcessTokens`. -/
def cleanupProcessedTokens (processed : List String) : List String :=
  if processed.length > 1000 then processed.drop 500 else processed

/-- One aggregation cycle's effect on the working set: the (up to 20)
newly processed addresses are appended in processing order, then the
cleanup runs. -/
def aggregationCycleProcessed (processed newly : List String) : List String :=
  cleanupProcessedTokens (processed ++ newly)

/-- C9: whenever the working set exceeds its capacity of 1000 after a
cycle appends its newly discovered addresses, exactly the 500
earliest-discovered entries (FIFO by discovery order) are purged in that
same cycle; the size comes back to at most 500 plus the newly arrived
entries, and none of the newly discovered entries is evicted. -/
theorem eviction_oldest_half (processed newly : List String)
    (hover : (processed ++ newly).length > 1000) (hnew : newly.length ≤ 500) :
    aggregationCycleProcessed processed newly = (processed ++ newly).drop 500 ∧
    (processed ++ newly).take 500 = processed.take 500 ∧
    (aggregationCycleProcessed processed newly).length = (processed ++ newly).length - 500 ∧
    ((processed ++ newly).length ≤ 1000 + newly.length →
      (aggregationCycleProcessed processed newly).length ≤ 500 + newly.length) ∧
    ∀ a ∈ newly, a ∈ aggregationCycleProcessed processed newly := by
  have hp5 : 500 ≤ processed.length := by
    have := hover
    simp only [List.length_append] at this
    omega
  have h1 : aggregationCycleProcessed processed newly = (processed ++ newly).drop 500 := by
    unfold aggregationCycleProcessed cleanupProcessedTokens
    rw [if_pos hover]
  refine ⟨h1, List.take_append_of_le_length hp5, ?_, ?_, ?_⟩
  · rw [h1, List.length_drop]
  · intro hle
    rw [h1, List.length_drop]
    omega
  · intro a ha
    rw [h1, List.drop_append_of_le_length hp5]
    exact List.mem_append_right _ ha

/-- Witness for C9: 999 old entries plus 2 newly discovered ones
overflow the bound; the cycle drops to 501 entries and both new entries
survive. -/
theorem eviction_oldest_half_witness :
    aggregationCycleProcessed (List.replicate 999 "old") ["n1", "n2"] =
      (List.replicate 999 "old" ++ ["n1", "n2"]).drop 500 ∧
    (List.replicate 999 "old" ++ ["n1", "n2"]).take 500 =
      (List.replicate 999 "old").take 500 ∧
    (aggregationCycleProcessed (List.replicate 999 "old") ["n1", "n2"]).length =
      (List.replicate 999 "old" ++ ["n1", "n2"]).length - 500 ∧
    ((List.replicate 999 "old" ++ ["n1", "n2"]).length ≤ 1000 + (["n1", "n2"] : List String).length →
      (aggregationCycleProcessed (List.replicate 999 "old") ["n1", "n2"]).length ≤
        500 + (["n1", "n2"] : List String).length) ∧
    ∀ a ∈ (["n1", "n2"] : List String),
      a ∈ aggregationCycleProcessed (List.replicate 999 "old") ["n1", "n2"] :=
  eviction_oldest_half (List.replicate 999 "old") ["n1", "n2"]
    (by simp only [List.length_append, List.length_replicate, List.length_cons,
          List.length_nil]; omega)
    (by simp only [List.length_cons, List.length_nil]; omega)

/-! ### Dedup pipeline (multi_source_token_scanner.js)

`handleNewToken(token, source)` drops any address already in the
processed set, otherwise marks it processed, enriches the token with its
source / discovery time / priority (`enrichTokenData`, with the optional
external price lookup passed in) and forwards the enriched candidate to
analysis.  The model records every enriched candidate created.
-/

namespace MS

structure RawToken where
  address : String
  symbol : String
  price : Option ℚ
  marketCap : Option ℚ
  liquidity : ℚ
  volume24h : ℚ
  priceChange24h : ℚ
  createdAt : ℤ
deriving Repr, DecidableEq

/-- The enriched candidate shape: the raw fields plus source,
discoveredAt and the source priority.  There is no multi-source flag in
the shape the code builds. -/
structure Candidate extends RawToken where
  source : String
  discoveredAt : ℤ
  priority : ℚ
deriving Repr, DecidableEq

/-- Transcription of `enrichTokenData`: tag the token with source,
discovery time and configured priority, and fill in price/marketCap from
the external lookup when either is missing. -/
def enrichTokenData (now : ℤ) (prio : String → ℚ) (priceData : Option (ℚ × Option ℚ))
    (t : RawToken) (source : String) : Candidate :=
  let enriched : Candidate :=
    { t with source := source, discoveredAt := now, priority := prio source }
  if enriched.price.isNone ∨ enriched.marketCap.isNone then
    match priceData with
    | some pd => { enriched with price := some pd.1, marketCap := pd.2 }
    | none => enriched
  else enriched

structure ScannerState where
  processedTokens : List String
  candidates : List Candidate
deriving Repr, DecidableEq

/-- Transcription of `handleNewToken`: an address already in the
processed set is skipped outright; otherwise it is marked processed and
the enriched candidate is created and passed on. -/
def handleNewToken (now : ℤ) (prio : String → ℚ) (priceData : Option (ℚ × Option ℚ))
    (st : ScannerState) (t : RawToken) (source : String) : ScannerState :=
  if t.address ∈ st.processedTokens then st
  else
    { processedTokens := st.processedTokens ++ [t.address]
      candidates := st.candidates ++ [enrichTokenData now prio priceData t source] }

end MS

/-- A raw token reported identically by two sources. -/
def rawC3 : MS.RawToken :=
  { address := "dup", symbol := "DP", price := some 1, marketCap := some 1,
    liquidity := 7000, volume24h := 100, priceChange24h := 0, createdAt := 0 }

/-- Counterexample to C3: ingesting the same address from pumpfun and
then raydium yields exactly one candidate, but that candidate carries
only the first source — a 1-element source set, not a 2-element one, and
the candidate shape has no multiSource flag at all. -/
theorem dedup_no_multiSource_cex :
    ((MS.handleNewToken 0 (fun _ => 1) none
        (MS.handleNewToken 0 (fun _ => 1) none ⟨[], []⟩ rawC3 "pumpfun")
        rawC3 "raydium").candidates.map MS.Candidate.source) = ["pumpfun"] ∧
    ((MS.handleNewToken 0 (fun _ => 1) none
        (MS.handleNewToken 0 (fun _ => 1) none ⟨[], []⟩ rawC3 "pumpfun")
        rawC3 "raydium").candidates.map MS.Candidate.source) ≠ ["pumpfun", "raydium"] := by
  have h1 : MS.handleNewToken 0 (fun _ => 1) none ⟨[], []⟩ rawC3 "pumpfun" =
      ⟨["dup"], [MS.enrichTokenData 0 (fun _ => 1) none rawC3 "pumpfun"]⟩ := by
    simp [MS.handleNewToken, rawC3]
  have h2 : MS.handleNewToken 0 (fun _ => 1) none
      ⟨["dup"], [MS.enrichTokenData 0 (fun _ => 1) none rawC3 "pumpfun"]⟩ rawC3 "raydium" =
      ⟨["dup"], [MS.enrichTokenData 0 (fun _ => 1) none rawC3 "pumpfun"]⟩ := by
    simp [MS.handleNewToken, rawC3]
  rw [h1, h2]
  constructor
  · simp [MS.enrichTokenData, rawC3]
  · simp [MS.enrichTokenData, rawC3]

/-- Helper: enrichment always tags the candidate with the reporting
source. -/
theorem enrichTokenData_source (now : ℤ) (prio : String → ℚ)
    (pd : Option (ℚ × Option ℚ)) (t : MS.RawToken) (source : String) :
    (MS.enrichTokenData now prio pd t source).source = source := by
  unfold MS.enrichTokenData
  dsimp only
  split_ifs
  · cases pd <;> rfl
  · rfl

/-- C3 amended: ingesting the same token address from two distinct
sources yields exactly one Candidate for that address — the second
ingestion is skipped by the processed set — and that Candidate records
only the first source; no multiSource flag is ever set. -/
theorem handleNewToken_dedup (now : ℤ) (prio : String → ℚ)
    (pd1 pd2 : Option (ℚ × Option ℚ)) (st : MS.ScannerState) (t : MS.RawToken)
    (s1 s2 : String) (h : t.address ∉ st.processedTokens) :
    (MS.handleNewToken now prio pd2 (MS.handleNewToken now prio pd1 st t s1) t s2).candidates =
      st.candidates ++ [MS.enrichTokenData now prio pd1 t s1] ∧
    (MS.handleNewToken now prio pd2 (MS.handleNewToken now prio pd1 st t s1) t s2).processedTokens =
      st.processedTokens ++ [t.address] ∧
    (MS.enrichTokenData now prio pd1 t s1).source = s1 := by
  have h1 : MS.handleNewToken now prio pd1 st t s1 =
      ⟨st.processedTokens ++ [t.address],
       st.candidates ++ [MS.enrichTokenData now prio pd1 t s1]⟩ := by
    simp [MS.handleNewToken, h]
  have h2 : t.address ∈ st.processedTokens ++ [t.address] := by simp
  rw [h1]
  refine ⟨?_, ?_, ?_⟩
  · simp [MS.handleNewToken, h2]
  · simp [MS.handleNewToken, h2]
  · exact enrichTokenData_source now prio pd1 t s1

/-- Witness for C3 amended: two ingestions of the duplicate token from
pumpfun and raydium starting from the empty scanner state. -/
theorem handleNewToken_dedup_witness :
    (MS.handleNewToken 0 (fun _ => 1) none
        (MS.handleNewToken 0 (fun _ => 1) none ⟨[], []⟩ rawC3 "pumpfun")
        rawC3 "raydium").candidates =
      [] ++ [MS.enrichTokenData 0 (fun _ => 1) none rawC3 "pumpfun"] ∧
    (MS.handleNewToken 0 (fun _ => 1) none
        (MS.handleNewToken 0 (fun _ => 1) none ⟨[], []⟩ rawC3 "pumpfun")
        rawC3 "raydium").processedTokens = [] ++ [rawC3.address] ∧
    (MS.enrichTokenData 0 (fun _ => 1) none rawC3 "pumpfun").source = "pumpfun" :=
  handleNewToken_dedup 0 (fun _ => 1) none none ⟨[], []⟩ rawC3 "pumpfun" "raydium"
    (by simp)
